import Mathlib

/-!
Verification of the WaterQualityClassifier core (classifiers.py, utils.py).

Modelling conventions (shallow embedding):
* Python strings are `List Char`; `chars` builds them from Lean string literals.
  A Python `Optional[str]` parameter whose only use is truthiness testing is
  modelled by `List Char` with `[]` standing for both `None` and `""` (the two
  are indistinguishable to every function below, which only test truthiness).
* Numeric readings are exact rationals `ℚ`.  The `float(value)` coercion at the
  head of every classifier is modelled by an `Option ℚ` argument: `none` is a
  value on which `float` raises (the `except` path), `some n` a successful
  parse.  Totality of the Lean functions models the "never raises" contract.
* `str.lower` is modelled by `Char.toLower` (ASCII case mapping, identity on
  CJK text, like Python on the alphabets appearing in this repository).
* Python's `re` character class `\s` is `isPySpace`, `\w` is `isWordChar`
  (ASCII alphanumerics, underscore and the CJK ranges used by the repository's
  data; both word characters in Python's Unicode `re`).
* `stripParens` models `re.sub(r"\（.*?\）|\(.*?\)", "", s)`: scanning left to
  right, a parenthesis opens a match iff a same-kind closer occurs before any
  newline (`.` does not match `\n`); the recursion carries a fuel argument
  initialised to the string length, and at least one character is consumed per
  step, so the fuel never runs out.
* The lake-station set is a `List (List Char)` of normalized names; list
  membership / existential scan coincide with Python's set membership and
  `for s in sset` loop for the membership predicates proved here.
-/

def chars (s : String) : List Char := s.data

/-- Characters matched by Python's `\s` (and stripped by `str.strip`). -/
def isPySpace (c : Char) : Bool :=
  c = ' ' || c = '\t' || c = '\n' || c = '\r' ||
  c.toNat = 0x0b || c.toNat = 0x0c ||
  (0x1c ≤ c.toNat && c.toNat ≤ 0x1f) ||
  c.toNat = 0x85 || c.toNat = 0xa0 ||
  c.toNat = 0x1680 || (0x2000 ≤ c.toNat && c.toNat ≤ 0x200a) ||
  c.toNat = 0x2028 || c.toNat = 0x2029 || c.toNat = 0x202f ||
  c.toNat = 0x205f || c.toNat = 0x3000

/-- Python `str.strip()`. -/
def pyStrip (l : List Char) : List Char :=
  ((l.dropWhile isPySpace).reverse.dropWhile isPySpace).reverse

/-- Python substring test `pat in l` (`str.__contains__`). -/
def containsSeq (pat : List Char) : List Char → Bool
  | [] => pat.isPrefixOf []
  | c :: rest => pat.isPrefixOf (c :: rest) || containsSeq pat rest

/-- Scans for the closing parenthesis of a `.*?` regex group: the nearest
`close` character, unreachable past a newline because `.` does not match
`\n`.  Returns the remainder after the closer. -/
def findClose (close : Char) : List Char → Option (List Char)
  | [] => none
  | c :: rest => if c = '\n' then none else if c = close then some rest else findClose close rest

/-- Fueled worker for `stripParens` (classifiers.py line 67). -/
def stripParensGo : Nat → List Char → List Char
  | 0, l => l
  | _ + 1, [] => []
  | fuel + 1, c :: rest =>
    if c = '(' then
      match findClose ')' rest with
      | some rest2 => stripParensGo fuel rest2
      | none => c :: stripParensGo fuel rest
    else if c = '（' then
      match findClose '）' rest with
      | some rest2 => stripParensGo fuel rest2
      | none => c :: stripParensGo fuel rest
    else c :: stripParensGo fuel rest

/-- Models `re.sub(r"\（.*?\）|\(.*?\)", "", s)`. -/
def stripParens (l : List Char) : List Char := stripParensGo l.length l

/-- Worker for whitespace-run collapse; the flag records whether the previous
character was whitespace. -/
def collapseWsGo : Bool → List Char → List Char
  | _, [] => []
  | prevSp, c :: rest =>
    if isPySpace c then (if prevSp then [] else [' ']) ++ collapseWsGo true rest
    else c :: collapseWsGo false rest

/-- Models `re.sub(r"[\s　]+", " ", s)` (U+3000 is already in `\s`). -/
def collapseWs (l : List Char) : List Char := collapseWsGo false l

/-- `WaterQualityClassifier._norm_station` (classifiers.py lines 58-72):
strip, remove parenthetical content, drop a leading `[\s\-_0-9]+` prefix,
collapse whitespace, strip, lowercase. -/
def normStation (raw : List Char) : List Char :=
  let s := pyStrip raw
  if s = [] then []
  else
    let s1 := stripParens s
    let s2 := s1.dropWhile (fun c => isPySpace c || c = '-' || c = '_' || ('0' ≤ c && c ≤ '9'))
    let s3 := pyStrip (collapseWs s2)
    s3.map Char.toLower

/-- `WaterQualityClassifier.set_lake_stations`: the stored set is the image of
`_norm_station` over the supplied names (a list models the set; membership
and existential scans agree with Python's). -/
def set_lake_stations (names : List (List Char)) : List (List Char) :=
  names.map normStation

/-- `WaterQualityClassifier.is_lake_station` (classifiers.py lines 95-117):
falsy name → False; normalize; empty set → False; exact membership; then,
only when `fuzzy`, a bidirectional-containment scan that skips empty
registered entries. -/
def is_lake_station (sset : List (List Char)) (station_name : List Char) (fuzzy : Bool) : Bool :=
  if station_name = [] then false
  else
    let n := normStation station_name
    if sset = [] then false
    else if n ∈ sset then true
    else if !fuzzy then false
    else sset.any (fun s => (!(s = [] : Bool)) && (containsSeq s n || containsSeq n s))

/-- Characters matched by Python's `\w` on the alphabets used here: ASCII
alphanumerics, underscore, and the CJK/kana ranges of the repository's data. -/
def isWordChar (c : Char) : Bool :=
  ('a' ≤ c && c ≤ 'z') || ('A' ≤ c && c ≤ 'Z') || ('0' ≤ c && c ≤ '9') || c = '_' ||
  (0x3400 ≤ c.toNat && c.toNat ≤ 0x9FFF) || (0x3040 ≤ c.toNat && c.toNat ≤ 0x30FF)

/-- A `\b` word boundary next to an optional neighbouring character. -/
def noWordChar : Option Char → Bool
  | none => true
  | some c => !isWordChar c

/-- Does `pat` occur at the head of `l`, with word boundaries on both sides
(`prev` is the character just before `l`)? -/
def hereMatch (pat : List Char) (prev : Option Char) (l : List Char) : Bool :=
  noWordChar prev && pat.isPrefixOf l && noWordChar (l.drop pat.length).head?

/-- Worker scanning every start position for a boundary-delimited match. -/
def wordMatchGo (pat : List Char) (prev : Option Char) : List Char → Bool
  | [] => hereMatch pat prev []
  | c :: rest => hereMatch pat prev (c :: rest) || wordMatchGo pat (some c) rest

/-- Models `re.search(r"\b<pat>\b", l)` for a literal `pat`. -/
def wordMatch (pat l : List Char) : Bool := wordMatchGo pat none l

/-- Single-character replacements of `_normalize_metric_name`: full-width
parentheses and colon to half-width, Unicode subscript m/n to ASCII. -/
def replFull (c : Char) : Char :=
  if c = '（' then '(' else if c = '）' then ')' else if c = '：' then ':'
  else if c = 'ₘ' then 'm' else if c = 'ₙ' then 'n' else c

/-- `WaterQualityClassifier._normalize_metric_name` (classifiers.py lines
274-283): strip, half-width punctuation, subscript fix, remove all
whitespace, lowercase. -/
def normalizeMetricName (raw : List Char) : List Char :=
  let s := pyStrip raw
  let s1 := s.map replFull
  (s1.filter (fun c => !isPySpace c)).map Char.toLower

/-- Models `re.search(r"cod(\(|-|_)?mn", low)`: one of the four literal
expansions of the optional separator group occurs as a substring. -/
def codmnPat (low : List Char) : Bool :=
  containsSeq (chars "codmn") low || containsSeq (chars "cod(mn") low ||
  containsSeq (chars "cod-mn") low || containsSeq (chars "cod_mn") low

/-- Literal expansions of `nh[-_ ]?3[-_ ]?n`. -/
def nh3nVariants : List (List Char) :=
  ["nh3n", "nh-3n", "nh_3n", "nh 3n", "nh3-n", "nh3_n", "nh3 n",
   "nh-3-n", "nh-3_n", "nh-3 n", "nh_3-n", "nh_3_n", "nh_3 n",
   "nh 3-n", "nh 3_n", "nh 3 n"].map chars

/-- Models `re.search(r"\bnh[-_ ]?3[-_ ]?n\b", low)`. -/
def nh3nPat (low : List Char) : Bool := nh3nVariants.any (fun p => wordMatch p low)

/-- Condition of the pH branch of `recognized_metric_id`. -/
def phCond (low : List Char) : Bool := containsSeq (chars "ph") low

/-- Condition of the dissolved-oxygen branch of `recognized_metric_id`. -/
def doCond (raw low : List Char) : Bool :=
  containsSeq (chars "溶解氧") raw || wordMatch (chars "do") low

/-- Condition of the permanganate-index branch of `recognized_metric_id`. -/
def codmnCond (raw low : List Char) : Bool :=
  containsSeq (chars "高锰酸") raw || containsSeq (chars "codmn") low || codmnPat low

/-- `WaterQualityClassifier.recognized_metric_id` (classifiers.py lines
285-326), with the branch conditions in the source's order. -/
def recognized_metric_id (raw : List Char) : Option String :=
  let low := normalizeMetricName raw
  if phCond low then some "pH"
  else if doCond raw low then some "溶解氧"
  else if codmnCond raw low then some "CODMn"
  else if containsSeq (chars "化学需氧量") raw || containsSeq (chars "codcr") low ||
          containsSeq (chars "cod(cr)") low then some "CODCr"
  else if wordMatch (chars "cod") low then some "CODCr"
  else if containsSeq (chars "氨氮") raw || nh3nPat low then some "氨氮"
  else if containsSeq (chars "总磷") raw || wordMatch (chars "tp") low then some "总磷"
  else if containsSeq (chars "总氮") raw || wordMatch (chars "tn") low then some "总氮"
  else if containsSeq (chars "生化需氧量") raw || containsSeq (chars "bod") low ||
          wordMatch (chars "bod") low then some "生化需氧量"
  else none

/-- `classify_pH` (classifiers.py lines 120-127). -/
def classify_pH : Option ℚ → String
  | none => ""
  | some n => if 6.0 ≤ n ∧ n ≤ 9.0 then "I类" else "劣V类"

/-- `classify_dissolved_oxygen` (classifiers.py lines 129-141). -/
def classify_dissolved_oxygen : Option ℚ → String
  | none => ""
  | some n =>
    if n ≥ 7.5 then "I类" else if n ≥ 6.0 then "II类" else if n ≥ 5.0 then "III类"
    else if n ≥ 3.0 then "IV类" else if n ≥ 2.0 then "V类" else "劣V类"

/-- `classify_permanganate_index` (classifiers.py lines 143-155). -/
def classify_permanganate_index : Option ℚ → String
  | none => ""
  | some n =>
    if n ≤ 2.0 then "I类" else if n ≤ 4.0 then "II类" else if n ≤ 6.0 then "III类"
    else if n ≤ 10.0 then "IV类" else if n ≤ 15.0 then "V类" else "劣V类"

/-- `classify_codcr` (classifiers.py lines 157-174); note the explicit
negative-value guard returning the empty string before the ladder. -/
def classify_codcr : Option ℚ → String
  | none => ""
  | some n =>
    if n < 0 then ""
    else if n ≤ 15 then "I类" else if n ≤ 20 then "III类"
    else if n ≤ 30 then "IV类" else if n ≤ 40 then "V类" else "劣V类"

/-- `classify_ammonia_nitrogen` (classifiers.py lines 176-188). -/
def classify_ammonia_nitrogen : Option ℚ → String
  | none => ""
  | some n =>
    if n ≤ 0.15 then "I类" else if n ≤ 0.5 then "II类" else if n ≤ 1.0 then "III类"
    else if n ≤ 1.5 then "IV类" else if n ≤ 2.0 then "V类" else "劣V类"

/-- `classify_total_phosphorus` — river ladder (classifiers.py lines 190-203). -/
def classify_total_phosphorus : Option ℚ → String
  | none => ""
  | some n =>
    if n ≤ 0.02 then "I类" else if n ≤ 0.1 then "II类" else if n ≤ 0.2 then "III类"
    else if n ≤ 0.3 then "IV类" else if n ≤ 0.4 then "V类" else "劣V类"

/-- `classify_total_phosphorus_lake` (classifiers.py lines 205-217). -/
def classify_total_phosphorus_lake : Option ℚ → String
  | none => ""
  | some n =>
    if n ≤ 0.015 then "I类" else if n ≤ 0.025 then "II类" else if n ≤ 0.05 then "III类"
    else if n ≤ 0.1 then "IV类" else if n ≤ 0.2 then "V类" else "劣V类"

/-- `classify_total_nitrogen` (classifiers.py lines 219-231). -/
def classify_total_nitrogen : Option ℚ → String
  | none => ""
  | some n =>
    if n ≤ 0.2 then "I类" else if n ≤ 0.5 then "II类" else if n ≤ 1.0 then "III类"
    else if n ≤ 1.5 then "IV类" else if n ≤ 2.0 then "V类" else "劣V类"

/-- `classify_biochemical_oxygen_demand` (classifiers.py lines 233-245);
the source's second `n <= 3.0` branch (II类) is kept though unreachable. -/
def classify_biochemical_oxygen_demand : Option ℚ → String
  | none => ""
  | some n =>
    if n ≤ 3.0 then "I类" else if n ≤ 3.0 then "II类" else if n ≤ 4.0 then "III类"
    else if n ≤ 6.0 then "IV类" else if n ≤ 10.0 then "V类" else "劣V类"

/-- Instance state of `WaterQualityClassifier`: the configured default water
type and the normalized lake-station set. -/
structure WQClassifier where
  water_type : List Char
  lake_set : List (List Char)

/-- `classify_total_phosphorus_by_type` (classifiers.py lines 247-272):
truthy explicit type wins, else truthy station name accepted by
`is_lake_station` (default fuzzy), else the instance default (or "河流"
when that is falsy); the lake ladder is used exactly when the resolved
type equals "湖库". -/
def classify_total_phosphorus_by_type (c : WQClassifier) (v : Option ℚ)
    (station_name explicit_water_type : List Char) : String :=
  let wt :=
    if explicit_water_type ≠ [] then explicit_water_type
    else if station_name ≠ [] ∧ is_lake_station c.lake_set station_name true then chars "湖库"
    else if c.water_type ≠ [] then c.water_type else chars "河流"
  if wt = chars "湖库" then classify_total_phosphorus_lake v
  else classify_total_phosphorus v

/-- `WaterQualityClassifier.CATEGORY_ORDER` (classifiers.py lines 8-16) as a
lookup (`dict.get`). -/
def CATEGORY_ORDER (c : List Char) : Option Nat :=
  if c = chars "合格" then some 1
  else if c = chars "I类" then some 1
  else if c = chars "II类" then some 2
  else if c = chars "III类" then some 3
  else if c = chars "IV类" then some 4
  else if c = chars "V类" then some 5
  else if c = chars "劣V类" then some 6
  else none

/-- `WaterQualityClassifier.ORDER_TO_CATEGORY` (classifiers.py lines 18-25)
as `dict.get(n, "")`. -/
def ORDER_TO_CATEGORY (n : Nat) : List Char :=
  if n = 1 then chars "I类" else if n = 2 then chars "II类"
  else if n = 3 then chars "III类" else if n = 4 then chars "IV类"
  else if n = 5 then chars "V类" else if n = 6 then chars "劣V类" else []

/-- `cls.CATEGORY_ORDER.get(c, 0)` as used by `overall_category`. -/
def rawOrder (c : List Char) : Nat := (CATEGORY_ORDER c).getD 0

/-- `WaterQualityClassifier.overall_category` (classifiers.py lines 405-415):
the loop accumulating `worst_order = max(worst_order, ORDER.get(c, 0))`
starting from 0, then `ORDER_TO_CATEGORY.get(worst_order, "")`. -/
def overall_category (l : List (List Char)) : List Char :=
  if l = [] then chars "无有效数据"
  else ORDER_TO_CATEGORY (l.foldl (fun w c => max w (rawOrder c)) 0)

/-- Expansion of the full-width Roman numeral replacements of
`normalize_category` (`Ⅱ` becomes the two ASCII characters `II`, etc.). -/
def romanExpand (c : Char) : List Char :=
  if c = 'Ⅰ' then chars "I" else if c = 'Ⅱ' then chars "II"
  else if c = 'Ⅲ' then chars "III" else if c = 'Ⅳ' then chars "IV"
  else if c = 'Ⅴ' then chars "V" else [c]

/-- The exact-match `digit2roman.get(s, s)` lookup of `normalize_category`. -/
def digit2roman (s : List Char) : List Char :=
  if s = chars "1" then chars "I" else if s = chars "2" then chars "II"
  else if s = chars "3" then chars "III" else if s = chars "4" then chars "IV"
  else if s = chars "5" then chars "V" else s

/-- Final membership step of `normalize_category`: append `类` when the core
is a Roman numeral I–V, else the empty string. -/
def finishRoman (s : List Char) : List Char :=
  if s = chars "I" ∨ s = chars "II" ∨ s = chars "III" ∨ s = chars "IV" ∨ s = chars "V"
  then s ++ chars "类" else []

/-- `normalize_category` (utils.py lines 87-104), on an already-present
string; the `None` input is handled by `normalize_categoryO`. -/
def normalize_category (raw : List Char) : List Char :=
  let s := pyStrip raw
  if s = [] then []
  else
    let s1 := s.filter (fun c => !isPySpace c)
    let s2 := (s1.map romanExpand).flatten
    let s3 := if s2.getLast? = some '类' then s2.dropLast else s2
    if s3.head? = some '劣' then chars "劣V类"
    else finishRoman (digit2roman s3)

/-- `normalize_category` with the `raw is None` guard (utils.py line 88). -/
def normalize_categoryO : Option (List Char) → List Char
  | none => []
  | some s => normalize_category s

/-- The empty pattern is a substring of every string (`"" in s` is True). -/
theorem containsSeq_nil (l : List Char) : containsSeq [] l = true := by
  cases l <;> simp [containsSeq, List.isPrefixOf]

/-- Exact-membership path of `is_lake_station`: a truthy name whose
normalization is in the set is accepted for any fuzzy flag. -/
theorem lake_exact (sset : List (List Char)) (name : List Char) (fz : Bool)
    (hname : name ≠ []) (hmem : normStation name ∈ sset) :
    is_lake_station sset name fz = true := by
  have hs : sset ≠ [] := by rintro rfl; simp at hmem
  simp only [is_lake_station]
  rw [if_neg hname, if_neg hs, if_pos hmem]

/-- Accumulator form of the `overall_category` worst-order loop. -/
theorem overall_foldl (l : List (List Char)) : ∀ w : Nat,
    l.foldl (fun a c => max a (rawOrder c)) w = max w ((l.map rawOrder).foldr max 0) := by
  induction l with
  | nil => intro w; simp
  | cons c t ih =>
    intro w
    simp only [List.foldl_cons, List.map_cons, List.foldr_cons, ih, max_assoc]

/-- C1 (amended): for every parsed reading n of `classify_codcr`, a negative
n yields the empty string; 0 ≤ n ≤ 15 yields "I类" (so "II类" is never
returned — categories I and II share the ≤15 bound); 15 < n ≤ 20 yields
"III类"; 20 < n ≤ 30 yields "IV类"; 30 < n ≤ 40 yields "V类"; n > 40
yields "劣V类". -/
theorem spec_c1_codcr_ladder (n : ℚ) :
    (n < 0 → classify_codcr (some n) = "") ∧
    (0 ≤ n → n ≤ 15 → classify_codcr (some n) = "I类") ∧
    (15 < n → n ≤ 20 → classify_codcr (some n) = "III类") ∧
    (20 < n → n ≤ 30 → classify_codcr (some n) = "IV类") ∧
    (30 < n → n ≤ 40 → classify_codcr (some n) = "V类") ∧
    (40 < n → classify_codcr (some n) = "劣V类") ∧
    classify_codcr (some n) ≠ "II类" := by
  refine ⟨?_, ?_, ?_, ?_, ?_, ?_, ?_⟩
  · intro h; simp only [classify_codcr]; rw [if_pos h]
  · intro h0 h1; simp only [classify_codcr]; rw [if_neg (not_lt.mpr h0), if_pos h1]
  · intro h1 h2
    simp only [classify_codcr]
    rw [if_neg (not_lt.mpr (by linarith)), if_neg (not_le.mpr h1), if_pos h2]
  · intro h1 h2
    simp only [classify_codcr]
    rw [if_neg (not_lt.mpr (by linarith)), if_neg (not_le.mpr (by linarith)),
        if_neg (not_le.mpr h1), if_pos h2]
  · intro h1 h2
    simp only [classify_codcr]
    rw [if_neg (not_lt.mpr (by linarith)), if_neg (not_le.mpr (by linarith)),
        if_neg (not_le.mpr (by linarith)), if_neg (not_le.mpr h1), if_pos h2]
  · intro h1
    simp only [classify_codcr]
    rw [if_neg (not_lt.mpr (by linarith)), if_neg (not_le.mpr (by linarith)),
        if_neg (not_le.mpr (by linarith)), if_neg (not_le.mpr (by linarith)),
        if_neg (not_le.mpr h1)]
  · simp only [classify_codcr]; split_ifs <;> decide

/-- C1 witness: the amended ladder evaluated at one point per branch. -/
theorem spec_c1_codcr_ladder_w :
    classify_codcr (some (-1)) = "" ∧ classify_codcr (some 10) = "I类" ∧
    classify_codcr (some 16) = "III类" ∧ classify_codcr (some 25) = "IV类" ∧
    classify_codcr (some 35) = "V类" ∧ classify_codcr (some 50) = "劣V类" :=
  ⟨(spec_c1_codcr_ladder (-1)).1 (by norm_num),
   (spec_c1_codcr_ladder 10).2.1 (by norm_num) (by norm_num),
   (spec_c1_codcr_ladder 16).2.2.1 (by norm_num) (by norm_num),
   (spec_c1_codcr_ladder 25).2.2.2.1 (by norm_num) (by norm_num),
   (spec_c1_codcr_ladder 35).2.2.2.2.1 (by norm_num) (by norm_num),
   (spec_c1_codcr_ladder 50).2.2.2.2.2.1 (by norm_num)⟩

/-- C1 counterexample: -1 parses as a real number with -1 ≤ 15, yet
`classify_codcr` returns the empty string, not "I类", because of the
negative-value guard at classifiers.py lines 164-165. -/
theorem spec_c1_codcr_cex :
    ((-1 : ℚ) ≤ 15) ∧ classify_codcr (some (-1)) ≠ "I类" := by
  constructor
  · norm_num
  · have h : classify_codcr (some (-1)) = "" := by norm_num [classify_codcr]
    rw [h]; decide

/-- C4: for every threshold-ladder classifier, the value exactly at each
published ladder bound classifies into the better (lower-severity) adjacent
category — upper bounds are inclusive, and for dissolved oxygen the bounds
are inclusive lower bounds; just above a bound the next category starts
(checked at the spec's 0.150001 example). -/
theorem spec_c4_inclusive_bounds :
    classify_dissolved_oxygen (some 7.5) = "I类" ∧
    classify_dissolved_oxygen (some 6.0) = "II类" ∧
    classify_dissolved_oxygen (some 5.0) = "III类" ∧
    classify_dissolved_oxygen (some 3.0) = "IV类" ∧
    classify_dissolved_oxygen (some 2.0) = "V类" ∧
    classify_permanganate_index (some 2.0) = "I类" ∧
    classify_permanganate_index (some 4.0) = "II类" ∧
    classify_permanganate_index (some 6.0) = "III类" ∧
    classify_permanganate_index (some 10.0) = "IV类" ∧
    classify_permanganate_index (some 15.0) = "V类" ∧
    classify_codcr (some 15) = "I类" ∧
    classify_codcr (some 20) = "III类" ∧
    classify_codcr (some 30) = "IV类" ∧
    classify_codcr (some 40) = "V类" ∧
    classify_ammonia_nitrogen (some 0.15) = "I类" ∧
    classify_ammonia_nitrogen (some 0.150001) = "II类" ∧
    classify_ammonia_nitrogen (some 0.5) = "II类" ∧
    classify_ammonia_nitrogen (some 1.0) = "III类" ∧
    classify_ammonia_nitrogen (some 1.5) = "IV类" ∧
    classify_ammonia_nitrogen (some 2.0) = "V类" ∧
    classify_total_phosphorus (some 0.02) = "I类" ∧
    classify_total_phosphorus (some 0.1) = "II类" ∧
    classify_total_phosphorus (some 0.2) = "III类" ∧
    classify_total_phosphorus (some 0.3) = "IV类" ∧
    classify_total_phosphorus (some 0.4) = "V类" ∧
    classify_total_phosphorus_lake (some 0.015) = "I类" ∧
    classify_total_phosphorus_lake (some 0.025) = "II类" ∧
    classify_total_phosphorus_lake (some 0.05) = "III类" ∧
    classify_total_phosphorus_lake (some 0.1) = "IV类" ∧
    classify_total_phosphorus_lake (some 0.2) = "V类" ∧
    classify_total_nitrogen (some 0.2) = "I类" ∧
    classify_total_nitrogen (some 0.5) = "II类" ∧
    classify_total_nitrogen (some 1.0) = "III类" ∧
    classify_total_nitrogen (some 1.5) = "IV类" ∧
    classify_total_nitrogen (some 2.0) = "V类" ∧
    classify_biochemical_oxygen_demand (some 3.0) = "I类" ∧
    classify_biochemical_oxygen_demand (some 4.0) = "III类" ∧
    classify_biochemical_oxygen_demand (some 6.0) = "IV类" ∧
    classify_biochemical_oxygen_demand (some 10.0) = "V类" := by
  norm_num [classify_dissolved_oxygen, classify_permanganate_index, classify_codcr,
    classify_ammonia_nitrogen, classify_total_phosphorus, classify_total_phosphorus_lake,
    classify_total_nitrogen, classify_biochemical_oxygen_demand]

/-- C7: `classify_pH` is two-sided with no intermediate categories — "I类"
exactly on 6.0 ≤ n ≤ 9.0 (both bounds inclusive), "劣V类" outside, and no
other category is ever returned for a parsed input. -/
theorem spec_c7_ph_two_sided (n : ℚ) :
    (6.0 ≤ n → n ≤ 9.0 → classify_pH (some n) = "I类") ∧
    (n < 6.0 → classify_pH (some n) = "劣V类") ∧
    (9.0 < n → classify_pH (some n) = "劣V类") ∧
    (classify_pH (some n) = "I类" ∨ classify_pH (some n) = "劣V类") := by
  refine ⟨?_, ?_, ?_, ?_⟩
  · intro h1 h2; simp only [classify_pH]; rw [if_pos ⟨h1, h2⟩]
  · intro h; simp only [classify_pH]; rw [if_neg (fun hc => absurd hc.1 (not_le.mpr h))]
  · intro h; simp only [classify_pH]; rw [if_neg (fun hc => absurd hc.2 (not_le.mpr h))]
  · simp only [classify_pH]; split_ifs <;> simp

/-- C7 witness: the spec's four boundary checks. -/
theorem spec_c7_ph_two_sided_w :
    classify_pH (some 6.0) = "I类" ∧ classify_pH (some 9.0) = "I类" ∧
    classify_pH (some 5.999) = "劣V类" ∧ classify_pH (some 9.001) = "劣V类" :=
  ⟨(spec_c7_ph_two_sided 6.0).1 (by norm_num) (by norm_num),
   (spec_c7_ph_two_sided 9.0).1 (by norm_num) (by norm_num),
   (spec_c7_ph_two_sided 5.999).2.1 (by norm_num),
   (spec_c7_ph_two_sided 9.001).2.2.1 (by norm_num)⟩

/-- C8: every metric classifier maps an input that does not parse as a real
number (the `except` path of `float(value)`, modelled by `none`) to the
empty string; the Lean functions are total, which models "never raises". -/
theorem spec_c8_unparseable_empty :
    classify_pH none = "" ∧ classify_dissolved_oxygen none = "" ∧
    classify_permanganate_index none = "" ∧ classify_codcr none = "" ∧
    classify_ammonia_nitrogen none = "" ∧ classify_total_phosphorus none = "" ∧
    classify_total_phosphorus_lake none = "" ∧ classify_total_nitrogen none = "" ∧
    classify_biochemical_oxygen_demand none = "" :=
  ⟨rfl, rfl, rfl, rfl, rfl, rfl, rfl, rfl, rfl⟩

/-- Range of the final membership step of `normalize_category`. -/
theorem finishRoman_cases (s : List Char) :
    finishRoman s = [] ∨ finishRoman s = chars "I类" ∨ finishRoman s = chars "II类" ∨
    finishRoman s = chars "III类" ∨ finishRoman s = chars "IV类" ∨ finishRoman s = chars "V类" := by
  unfold finishRoman
  split_ifs with h
  · rcases h with h | h | h | h | h <;> subst h <;> decide
  · exact Or.inl rfl

/-- Weakening of `finishRoman_cases` to the seven-way disjunction used for
the range of `normalize_category`. -/
theorem finishRoman_cases7 (y : List Char) :
    finishRoman y = [] ∨ finishRoman y = chars "劣V类" ∨
    finishRoman y = chars "I类" ∨ finishRoman y = chars "II类" ∨
    finishRoman y = chars "III类" ∨ finishRoman y = chars "IV类" ∨
    finishRoman y = chars "V类" := by
  rcases finishRoman_cases y with h | h | h | h | h | h <;> rw [h] <;> tauto

/-- Range of `normalize_category`: the empty string or one of the six
canonical category strings. -/
theorem normalize_category_cases (s : List Char) :
    normalize_category s = [] ∨ normalize_category s = chars "劣V类" ∨
    normalize_category s = chars "I类" ∨ normalize_category s = chars "II类" ∨
    normalize_category s = chars "III类" ∨ normalize_category s = chars "IV类" ∨
    normalize_category s = chars "V类" := by
  simp only [normalize_category]
  split_ifs <;> first
    | exact Or.inl rfl
    | exact Or.inr (Or.inl rfl)
    | exact finishRoman_cases7 _

/-- C9: `normalize_category` is total — it is defined on every text
including `None` (the `Option` argument) and never raises, being a total
Lean function — and idempotent: applying it to its own output returns that
output unchanged. -/
theorem spec_c9_normalize_idem (x : Option (List Char)) :
    normalize_categoryO (some (normalize_categoryO x)) = normalize_categoryO x := by
  have fix : ∀ s : List Char, normalize_category (normalize_category s) = normalize_category s := by
    intro s
    rcases normalize_category_cases s with h | h | h | h | h | h | h <;> rw [h] <;> decide
  cases x with
  | none => decide
  | some s => exact fix s

/-- C3 (amended): `overall_category` returns the sentinel "无有效数据" on an
empty list; on a non-empty list each entry is looked up directly (raw) in
the order table — entries are NOT passed through the category normalizer,
which belongs to `compute_overall_from_categories` in utils.py — an
unrecognized entry counts as order 0, and the maximum order selects the
result through the order→category table; the spec's two examples hold. -/
theorem spec_c3_overall :
    overall_category [] = chars "无有效数据" ∧
    (∀ l : List (List Char), l ≠ [] →
      overall_category l = ORDER_TO_CATEGORY ((l.map rawOrder).foldr max 0)) ∧
    overall_category [chars "I类", chars "劣V类", chars "III类"] = chars "劣V类" ∧
    overall_category [chars "合格", chars "II类"] = chars "II类" := by
  refine ⟨by decide, ?_, by decide, by decide⟩
  intro l hl
  simp only [overall_category]
  rw [if_neg hl, overall_foldl, Nat.zero_max]

/-- C3 witness: the amended equation applied to a concrete non-empty list. -/
theorem spec_c3_overall_w :
    overall_category [chars "IV类", chars "II类"] =
      ORDER_TO_CATEGORY (([chars "IV类", chars "II类"].map rawOrder).foldr max 0) :=
  spec_c3_overall.2.1 _ (by decide)

/-- C3 counterexample: `overall_category` does not normalize its entries —
on ["Ⅱ类"] (full-width Roman numeral) it returns "" although the category
normalizer maps "Ⅱ类" to "II类" of order 2, whose order→category image is
"II类" ≠ "". -/
theorem spec_c3_overall_cex :
    overall_category [chars "Ⅱ类"] = [] ∧
    normalize_category (chars "Ⅱ类") = chars "II类" ∧
    rawOrder (normalize_category (chars "Ⅱ类")) = 2 ∧
    ORDER_TO_CATEGORY 2 = chars "II类" ∧
    (chars "II类" : List Char) ≠ [] := by decide

/-- C2 (amended): `classify_total_phosphorus_by_type` resolves the water
type by exact priority — a non-empty explicit type always wins (lake ladder
iff it equals "湖库"); otherwise a NON-EMPTY station name whose
normalization is in the registry selects the lake ladder; otherwise the
instance default decides.  Passing explicit "河流" yields the river ladder
regardless of registry membership. -/
theorem spec_c2_tp_priority :
    (∀ (c : WQClassifier) (v : Option ℚ) (sn e : List Char), e ≠ [] →
      classify_total_phosphorus_by_type c v sn e =
        if e = chars "湖库" then classify_total_phosphorus_lake v
        else classify_total_phosphorus v) ∧
    (∀ (c : WQClassifier) (v : Option ℚ) (sn : List Char), sn ≠ [] →
      normStation sn ∈ c.lake_set →
      classify_total_phosphorus_by_type c v sn [] = classify_total_phosphorus_lake v) ∧
    (∀ (c : WQClassifier) (v : Option ℚ) (sn : List Char),
      classify_total_phosphorus_by_type c v sn (chars "河流") = classify_total_phosphorus v) ∧
    (∀ (c : WQClassifier) (v : Option ℚ) (sn : List Char),
      (sn = [] ∨ is_lake_station c.lake_set sn true = false) →
      classify_total_phosphorus_by_type c v sn [] =
        if c.water_type = chars "湖库" then classify_total_phosphorus_lake v
        else classify_total_phosphorus v) := by
  refine ⟨?_, ?_, ?_, ?_⟩
  · intro c v sn e he
    simp only [classify_total_phosphorus_by_type]
    rw [if_pos he]
  · intro c v sn hsn hmem
    have hl := lake_exact c.lake_set sn true hsn hmem
    simp only [classify_total_phosphorus_by_type]
    rw [if_neg (show ¬(([] : List Char) ≠ []) by simp),
        if_pos (show sn ≠ [] ∧ is_lake_station c.lake_set sn true = true from ⟨hsn, hl⟩),
        if_pos (rfl : chars "湖库" = chars "湖库")]
  · intro c v sn
    simp only [classify_total_phosphorus_by_type]
    rw [if_pos (by decide : chars "河流" ≠ ([] : List Char)),
        if_neg (by decide : ¬(chars "河流" = chars "湖库"))]
  · intro c v sn h
    have hcond : ¬(sn ≠ [] ∧ is_lake_station c.lake_set sn true = true) := by
      rcases h with h | h
      · exact fun hc => hc.1 h
      · exact fun hc => by rw [h] at hc; exact Bool.false_ne_true hc.2
    simp only [classify_total_phosphorus_by_type]
    rw [if_neg (show ¬(([] : List Char) ≠ []) by simp), if_neg hcond]
    by_cases hw : c.water_type = []
    · rw [if_neg (show ¬(c.water_type ≠ []) by simp [hw]), hw,
          if_neg (show ¬(chars "河流" = chars "湖库") by decide),
          if_neg (show ¬(([] : List Char) = chars "湖库") by decide)]
    · rw [if_pos hw]

/-- C2 witness: a registry containing the normalized "xyz"; the bare station
name selects the lake ladder, the explicit "河流" forces the river ladder. -/
theorem spec_c2_tp_priority_w :
    classify_total_phosphorus_by_type ⟨chars "河流", [chars "xyz"]⟩ (some 0.03)
        (chars "xyz") [] = classify_total_phosphorus_lake (some 0.03) ∧
    classify_total_phosphorus_by_type ⟨chars "河流", [chars "xyz"]⟩ (some 0.03)
        (chars "xyz") (chars "河流") = classify_total_phosphorus (some 0.03) :=
  ⟨spec_c2_tp_priority.2.1 ⟨chars "河流", [chars "xyz"]⟩ (some 0.03) (chars "xyz")
      (by decide) (by decide),
   spec_c2_tp_priority.2.2.1 ⟨chars "河流", [chars "xyz"]⟩ (some 0.03) (chars "xyz")⟩

/-- C2 counterexample: the empty station name "" is falsy in Python, so even
though its normalization "" is in the registry (reachable: normalizing "()"
gives ""), the river-default instance uses the river ladder — 0.03 gives
"II类" instead of the lake ladder's "III类". -/
theorem spec_c2_tp_cex :
    set_lake_stations [chars "()"] = [[]] ∧
    normStation [] ∈ ([[]] : List (List Char)) ∧
    classify_total_phosphorus_by_type ⟨chars "河流", [[]]⟩ (some 0.03) [] [] = "II类" ∧
    classify_total_phosphorus_lake (some 0.03) = "III类" ∧
    ("II类" : String) ≠ "III类" := by
  refine ⟨by decide, by decide, ?_, by norm_num [classify_total_phosphorus_lake], by decide⟩
  have h2 : chars "河流" ≠ chars "湖库" := by decide
  have h3 : chars "河流" ≠ ([] : List Char) := by decide
  simp only [classify_total_phosphorus_by_type]
  norm_num [classify_total_phosphorus, h2, h3]

/-- C5 (amended): a raw label containing "高锰酸", or whose normalized form
contains "codmn", never resolves to "CODCr" — the permanganate check
precedes the CODCr branches; it resolves to "CODMn" provided no
earlier-priority rule fires (the pH substring test and the
dissolved-oxygen test precede the permanganate check and win on overlap). -/
theorem spec_c5_codmn_priority :
    (∀ raw : List Char,
      (containsSeq (chars "高锰酸") raw = true ∨
       containsSeq (chars "codmn") (normalizeMetricName raw) = true) →
      recognized_metric_id raw ≠ some "CODCr") ∧
    (∀ raw : List Char,
      (containsSeq (chars "高锰酸") raw = true ∨
       containsSeq (chars "codmn") (normalizeMetricName raw) = true) →
      phCond (normalizeMetricName raw) = false →
      doCond raw (normalizeMetricName raw) = false →
      recognized_metric_id raw = some "CODMn") := by
  have hc : ∀ raw : List Char,
      (containsSeq (chars "高锰酸") raw = true ∨
       containsSeq (chars "codmn") (normalizeMetricName raw) = true) →
      codmnCond raw (normalizeMetricName raw) = true := by
    intro raw h
    rcases h with h | h <;> simp [codmnCond, h]
  constructor
  · intro raw h
    have h3 := hc raw h
    simp only [recognized_metric_id, h3]
    split_ifs <;> simp
  · intro raw h hph hdo
    have h3 := hc raw h
    simp only [recognized_metric_id, h3, hph, hdo]
    simp

/-- C5 witness: concrete permanganate labels through each part. -/
theorem spec_c5_codmn_priority_w :
    recognized_metric_id (chars "高锰酸盐指数") = some "CODMn" ∧
    recognized_metric_id (chars "codmn") ≠ some "CODCr" :=
  ⟨spec_c5_codmn_priority.2 (chars "高锰酸盐指数") (Or.inl (by decide)) (by decide) (by decide),
   spec_c5_codmn_priority.1 (chars "codmn") (Or.inr (by decide))⟩

/-- C5 counterexample: the label "ph高锰酸" contains "高锰酸" but resolves to
"pH", not "CODMn" — the pH substring test fires first. -/
theorem spec_c5_codmn_cex :
    containsSeq (chars "高锰酸") (chars "ph高锰酸") = true ∧
    recognized_metric_id (chars "ph高锰酸") = some "pH" ∧
    (some "pH" : Option String) ≠ some "CODMn" := by decide

/-- C6 (amended): `is_lake_station` yields false on an empty input or empty
registry; a truthy name whose normalization is an exact registry member is
accepted for any fuzzy flag; when the exact test fails, fuzzy=false yields
false and fuzzy=true yields true exactly when some NON-EMPTY registered
name and the normalized input contain one another (the loop skips empty
registry entries). -/
theorem spec_c6_lake_membership :
    (∀ (sset : List (List Char)) (fz : Bool), is_lake_station sset [] fz = false) ∧
    (∀ (name : List Char) (fz : Bool), is_lake_station [] name fz = false) ∧
    (∀ (sset : List (List Char)) (name : List Char) (fz : Bool),
      name ≠ [] → normStation name ∈ sset → is_lake_station sset name fz = true) ∧
    (∀ (sset : List (List Char)) (name : List Char),
      name ≠ [] → sset ≠ [] → normStation name ∉ sset →
      is_lake_station sset name false = false ∧
      (is_lake_station sset name true = true ↔
        ∃ s ∈ sset, s ≠ [] ∧
          (containsSeq s (normStation name) = true ∨
           containsSeq (normStation name) s = true))) := by
  refine ⟨?_, ?_, ?_, ?_⟩
  · intro sset fz; simp [is_lake_station]
  · intro name fz; simp [is_lake_station]
  · intro sset name fz hname hmem; exact lake_exact sset name fz hname hmem
  · intro sset name hname hsset hmem
    constructor
    · simp only [is_lake_station]
      rw [if_neg hname, if_neg hsset, if_neg hmem, if_pos (by decide : (!false) = true)]
    · simp only [is_lake_station]
      rw [if_neg hname, if_neg hsset, if_neg hmem,
          if_neg (by decide : ¬((!true) = true))]
      simp only [List.any_eq_true, Bool.and_eq_true, Bool.or_eq_true,
        Bool.not_eq_true', decide_eq_false_iff_not]

/-- C6 witness: the spec's registry {"朱家尖"} — exact match after
parenthetical stripping, and fuzzy containment for the longer name. -/
theorem spec_c6_lake_membership_w :
    is_lake_station (set_lake_stations [chars "朱家尖"]) (chars "朱家尖(西)") true = true ∧
    is_lake_station (set_lake_stations [chars "朱家尖"]) (chars "朱家尖水库监测点") true = true :=
  ⟨spec_c6_lake_membership.2.2.1 (set_lake_stations [chars "朱家尖"]) (chars "朱家尖(西)") true
      (by decide) (by decide),
   (spec_c6_lake_membership.2.2.2 (set_lake_stations [chars "朱家尖"]) (chars "朱家尖水库监测点")
      (by decide) (by decide) (by decide)).2.mpr
     ⟨chars "朱家尖", by decide, by decide, Or.inl (by decide)⟩⟩

/-- C6 counterexample: with the reachable registry {"", "bbb"} (normalizing
"()" gives "") and query "az", some registered name ("") is a substring of
the normalized input, so the claimed bidirectional-containment formula says
true, but `is_lake_station` returns false — the fuzzy loop skips empty
registered entries. -/
theorem spec_c6_lake_cex :
    set_lake_stations [chars "()", chars "bbb"] = [[], chars "bbb"] ∧
    (∃ s ∈ ([[], chars "bbb"] : List (List Char)),
      containsSeq s (normStation (chars "az")) = true ∨
      containsSeq (normStation (chars "az")) s = true) ∧
    is_lake_station [[], chars "bbb"] (chars "az") true = false := by
  refine ⟨by decide, ⟨[], by decide, Or.inl (by decide)⟩, by decide⟩

/-- C10: a non-empty station name whose normalization is empty (for example
one made only of digits, hyphens, underscores and whitespace) is accepted
by the fuzzy membership test against every registry holding at least one
non-empty entry — the empty normalized input is contained in every
registered name — and therefore selects the lake phosphorus ladder in
`classify_total_phosphorus_by_type`. -/
theorem spec_c10_empty_norm_lake (sset : List (List Char)) (name wt : List Char) (v : Option ℚ) :
    name ≠ [] → normStation name = [] → (∃ s ∈ sset, s ≠ []) →
    is_lake_station sset name true = true ∧
    classify_total_phosphorus_by_type ⟨wt, sset⟩ v name [] = classify_total_phosphorus_lake v := by
  intro hname hnorm hex
  have hs : sset ≠ [] := by
    rcases hex with ⟨s, hsmem, _⟩
    rintro rfl
    simp at hsmem
  have hlake : is_lake_station sset name true = true := by
    simp only [is_lake_station]
    rw [if_neg hname, if_neg hs, hnorm]
    by_cases hmem : ([] : List Char) ∈ sset
    · rw [if_pos hmem]
    · rw [if_neg hmem, if_neg (by decide : ¬((!true) = true)), List.any_eq_true]
      rcases hex with ⟨s, hsmem, hsne⟩
      refine ⟨s, hsmem, ?_⟩
      simp [hsne, containsSeq_nil]
  refine ⟨hlake, ?_⟩
  simp only [classify_total_phosphorus_by_type]
  rw [if_neg (show ¬(([] : List Char) ≠ []) by simp),
      if_pos (show name ≠ [] ∧ is_lake_station sset name true = true from ⟨hname, hlake⟩),
      if_pos (rfl : chars "湖库" = chars "湖库")]

/-- C10 witness: name "01-" (normalizing to "") against registry {"abc"}. -/
theorem spec_c10_empty_norm_lake_w :
    is_lake_station [chars "abc"] (chars "01-") true = true ∧
    classify_total_phosphorus_by_type ⟨chars "河流", [chars "abc"]⟩ (some 0.03)
        (chars "01-") [] = classify_total_phosphorus_lake (some 0.03) :=
  spec_c10_empty_norm_lake [chars "abc"] (chars "01-") (chars "河流") (some 0.03)
    (by decide) (by decide) ⟨chars "abc", by decide, by decide⟩
